import Mathlib

/-!
Verification development for the birdwatch watcher core
(src/middleware/watcher.ts).

The watcher keeps a subscription store (table `watchers`, one row per
CRN holding a list of subscriber emails), a cached course-catalog
snapshot (departments containing courses containing sections), and three
operations: `scan` (fetch catalog, match subscriptions against sections
with free seats, send a mail per match and delete the matched row),
`register` (subscribe an email to a CRN) and `purge` (remove an email
from one or all rows).

The definitions below are a shallow embedding of that code: lists stand
for SQL tables and JSON arrays, `Except` for thrown errors and rejected
promises, and a `sendOk` oracle for the outcome of the fire-and-forget
mail send (whose callback only logs).
-/

namespace Birdwatch

/-- A row of the `watchers` table: `{ crn, emails }`.
In Postgres `emails` is a text array, so it is a list, not a set. -/
structure WatcherRow where
  crn : Nat
  emails : List String
deriving DecidableEq, Repr

/-- A catalog section: `{ sec, cap, rem, crn }` (field order as in the
source interface). -/
structure Section where
  sec : String
  cap : Int
  rem : Int
  crn : Nat
deriving DecidableEq, Repr

/-- A catalog course: `{ crse, id, sections, title }`. -/
structure Course where
  crse : String
  id : String
  sections : List Section
  title : String
deriving DecidableEq, Repr

/-- A catalog department: `{ code, courses }`. -/
structure Department where
  code : String
  courses : List Course
deriving DecidableEq, Repr

/-- The payload handed to the mail transport for one match. -/
structure Mail where
  «to» : String
  subject : String
  text : String
deriving DecidableEq, Repr

/-- One notification attempt, tagged with the CRN of the subscription
row it serves (the section that matched). -/
structure Notification where
  crn : Nat
  mail : Mail
deriving DecidableEq, Repr

/-- Lookup in the listener `Map` that `scan` builds by iterating the
rows read from the store and calling `listeners.set(crn, emails)`: a
later row with the same key overwrites an earlier one, so the lookup
finds the last matching row. -/
def listenersGet (rows : List WatcherRow) (crn : Nat) : Option (List String) :=
  (rows.reverse.find? (fun r => r.crn == crn)).map WatcherRow.emails

/-- `listeners.has(section.crn) && section.rem > 0`, the match condition
of the scan loop, evaluated against the rows read at scan start. -/
def isMatch (rows : List WatcherRow) (s : Section) : Bool :=
  (listenersGet rows s.crn).isSome && decide (s.rem > 0)

/-- The mail built for a matched section: recipients are the listener
emails joined with a comma (`join(', ')`, with `?? ''` for a missing
entry), subject and text are the template literals of the source. -/
def mkMail (rows : List WatcherRow) (course : Course) (s : Section) : Mail :=
  { «to» := String.intercalate ", " ((listenersGet rows s.crn).getD [])
    subject := "Course [" ++ course.title ++ "] section [" ++ s.sec ++ "] has a seat available!"
    text := toString s.rem ++ "/" ++ toString s.cap ++ " seats available" }

/-- The notification record for a matched (course, section) pair. -/
def mkNotif (rows : List WatcherRow) (p : Course × Section) : Notification :=
  ⟨p.2.crn, mkMail rows p.1 p.2⟩

/-- `db('watchers').delete().where({ crn })`: drop every row with the
given CRN. -/
def deleteCrn (store : List WatcherRow) (crn : Nat) : List WatcherRow :=
  store.filter (fun r => r.crn != crn)

/-- The mutable effects accumulated while the scan loop runs: the
current state of the `watchers` table, the notifications handed to the
transport in order, and those whose send callback reported an error
(the callback only logs them). -/
structure ScanState where
  store : List WatcherRow
  sent : List Notification
  failures : List Notification
deriving DecidableEq, Repr

/-- The body of the innermost scan loop for one section: when the
listener map has the CRN and seats remain, send the mail (recording a
failure when the transport reports one) and issue the row deletion;
otherwise do nothing. `rows` is the store as read at scan start. -/
def scanStep (sendOk : Notification → Bool) (rows : List WatcherRow)
    (st : ScanState) (p : Course × Section) : ScanState :=
  if isMatch rows p.2 then
    let n : Notification := mkNotif rows p
    { store := deleteCrn st.store p.2.crn
      sent := st.sent ++ [n]
      failures := st.failures ++ (if sendOk n then [] else [n]) }
  else st

/-- The loop over the sections of one course. -/
def scanCourse (sendOk : Notification → Bool) (rows : List WatcherRow)
    (st : ScanState) (course : Course) : ScanState :=
  course.sections.foldl (fun st s => scanStep sendOk rows st (course, s)) st

/-- The loop over the courses of one department. -/
def scanDept (sendOk : Notification → Bool) (rows : List WatcherRow)
    (st : ScanState) (d : Department) : ScanState :=
  d.courses.foldl (scanCourse sendOk rows) st

/-- The matching/notifying phase of `scan`: iterate departments, then
courses, then sections, starting from the store as read at scan start
with nothing yet sent. -/
def scan (sendOk : Notification → Bool) (rows : List WatcherRow)
    (deps : List Department) : ScanState :=
  deps.foldl (scanDept sendOk rows) ⟨rows, [], []⟩

/-- The (course, section) pairs of one course, in order. -/
def courseSections (c : Course) : List (Course × Section) :=
  c.sections.map (fun s => (c, s))

/-- The (course, section) pairs of one department, in order. -/
def deptSections (d : Department) : List (Course × Section) :=
  (d.courses.map courseSections).flatten

/-- All (course, section) pairs of a snapshot in traversal order
(department, then course, then section). -/
def allCourseSections (deps : List Department) : List (Course × Section) :=
  (deps.map deptSections).flatten

/-- All sections of a snapshot in traversal order. -/
def allSections (deps : List Department) : List Section :=
  (allCourseSections deps).map Prod.snd

/-- The lookup loop of `register`: walk departments, courses and
sections until a section with the requested CRN is found (the
three-level `break` is an early exit, so the loop computes exactly this
existence test). -/
def sectionExists (deps : List Department) (crn : Nat) : Bool :=
  deps.any (fun d => d.courses.any (fun c => c.sections.any (fun s => s.crn == crn)))

/-- The upsert issued by `register`:
`insert({crn, emails: [email]}).onConflict('crn').merge({emails: watchers.emails || EXCLUDED.emails})`.
With no conflicting row a new row `{crn, [email]}` is inserted; on
conflict the existing row keeps its CRN and its emails array is
concatenated with `[email]` (the Postgres array `||` operator appends
without removing duplicates). -/
def upsertAppend (rows : List WatcherRow) (crn : Nat) (email : String) : List WatcherRow :=
  if rows.any (fun r => r.crn == crn) then
    rows.map (fun r => if r.crn == crn then ⟨r.crn, r.emails ++ [email]⟩ else r)
  else rows ++ [⟨crn, [email]⟩]

/-- `register(crn, email)` against a cached snapshot `deps`: if no
section of the snapshot carries the CRN, throw `Error('not found')`
before touching the store; otherwise run the upsert. -/
def register (rows : List WatcherRow) (deps : List Department) (crn : Nat)
    (email : String) : Except String (List WatcherRow) :=
  if sectionExists deps crn then Except.ok (upsertAppend rows crn email)
  else Except.error "not found"

/-- The store after a `register` call: the upsert result on success, the
untouched table when the call threw before reaching the database. -/
def registerResultStore (rows : List WatcherRow) (deps : List Department)
    (crn : Nat) (email : String) : List WatcherRow :=
  match register rows deps crn email with
  | Except.ok rows2 => rows2
  | Except.error _ => rows

/-- How many times `email` occurs in the emails array of the row that a
lookup by `crn` finds (0 when no row has the CRN). -/
def emailCount (rows : List WatcherRow) (crn : Nat) (email : String) : Nat :=
  match rows.find? (fun r => r.crn == crn) with
  | some r => r.emails.count email
  | none => 0

/-- `ARRAY_REMOVE(emails, email)`: delete every occurrence of the value
from the array. -/
def removeEmail (emails : List String) (email : String) : List String :=
  emails.filter (fun e => e != email)

/-- The truthiness test `if (crn)` applied to the optional CRN argument
of `purge`: an absent argument and the number 0 are both falsy. -/
def jsTruthy : Option Nat → Bool
  | some c => c != 0
  | none => false

/-- `purge(email, crn?)`: an UPDATE setting
`emails = ARRAY_REMOVE(emails, email)`, restricted by
`where({crn})` only when the argument is truthy. Returns the updated
table and the number of rows the UPDATE matched (the count the
completion log reports). -/
def purge (rows : List WatcherRow) (email : String) (crn : Option Nat) :
    List WatcherRow × Nat :=
  if jsTruthy crn then
    (rows.map (fun r => if r.crn == crn.getD 0 then ⟨r.crn, removeEmail r.emails email⟩ else r),
     (rows.filter (fun r => r.crn == crn.getD 0)).length)
  else
    (rows.map (fun r => ⟨r.crn, removeEmail r.emails email⟩), rows.length)

/-- The state a Watcher instance owns across scans: the cached snapshot
`courseData` (absent until the first successful fetch) and the
subscription store. -/
structure WatcherState where
  courseData : Option (List Department)
  store : List WatcherRow
deriving DecidableEq, Repr

/-- `semesters[semesters.length - 1]`: the last entry of the release
listing, absent when the listing is empty (in which case reading its
`path` property throws and the promise chain rejects). -/
def selectLatest (semesters : List String) : Option String :=
  semesters.getLast?

/-- One whole `scan()` cycle. `listing` is the outcome of fetching the
semester directory listing, `fetchCourses` the outcome of fetching the
course data of a given release path. A failure at any fetch stage
rejects the promise chain before the snapshot is replaced, before the
listener map is built and before any match is processed; on success the
snapshot is replaced wholesale and the match/notify/delete loop runs.
Returns the new watcher state and the notifications attempted. -/
def scanFull (st : WatcherState) (listing : Except String (List String))
    (fetchCourses : String → Except String (List Department))
    (sendOk : Notification → Bool) : WatcherState × List Notification :=
  match listing with
  | Except.error _ => (st, [])
  | Except.ok semesters =>
    match selectLatest semesters with
    | none => (st, [])
    | some path =>
      match fetchCourses path with
      | Except.error _ => (st, [])
      | Except.ok departments =>
        let r := scan sendOk st.store departments
        (⟨some departments, r.store⟩, r.sent)

/-! ### Characterization of the scan loop

The nested department/course/section loops are one fold of `scanStep`
over the flattened traversal `allCourseSections`. -/

theorem scanCourse_eq (sendOk : Notification → Bool) (rows : List WatcherRow)
    (st : ScanState) (c : Course) :
    scanCourse sendOk rows st c = (courseSections c).foldl (scanStep sendOk rows) st := by
  simp [scanCourse, courseSections, List.foldl_map]

theorem foldl_scanCourse_eq (sendOk : Notification → Bool) (rows : List WatcherRow)
    (cs : List Course) (st : ScanState) :
    cs.foldl (scanCourse sendOk rows) st =
      ((cs.map courseSections).flatten).foldl (scanStep sendOk rows) st := by
  induction cs generalizing st with
  | nil => rfl
  | cons c cs ih => simp [List.foldl_append, scanCourse_eq, ih]

theorem scanDept_eq (sendOk : Notification → Bool) (rows : List WatcherRow)
    (st : ScanState) (d : Department) :
    scanDept sendOk rows st d = (deptSections d).foldl (scanStep sendOk rows) st := by
  simp [scanDept, deptSections, foldl_scanCourse_eq]

theorem scan_eq_foldl (sendOk : Notification → Bool) (rows : List WatcherRow)
    (deps : List Department) :
    scan sendOk rows deps =
      (allCourseSections deps).foldl (scanStep sendOk rows) ⟨rows, [], []⟩ := by
  unfold scan allCourseSections
  generalize (⟨rows, [], []⟩ : ScanState) = st
  induction deps generalizing st with
  | nil => rfl
  | cons d deps ih => simp [List.foldl_append, scanDept_eq, ih]

theorem foldl_scanStep_sent (sendOk : Notification → Bool) (rows : List WatcherRow)
    (l : List (Course × Section)) (st : ScanState) :
    (l.foldl (scanStep sendOk rows) st).sent =
      st.sent ++ (l.filter (fun p => isMatch rows p.2)).map (mkNotif rows) := by
  induction l generalizing st with
  | nil => simp
  | cons p l ih =>
    cases h : isMatch rows p.2 with
    | false => simp [scanStep, h, ih, List.filter_cons]
    | true => simp [scanStep, h, ih, List.filter_cons]

/-- The mails a scan hands to the transport are exactly those of the
matched sections, in traversal order. -/
theorem scan_sent (sendOk : Notification → Bool) (rows : List WatcherRow)
    (deps : List Department) :
    (scan sendOk rows deps).sent =
      ((allCourseSections deps).filter (fun p => isMatch rows p.2)).map (mkNotif rows) := by
  rw [scan_eq_foldl, foldl_scanStep_sent]
  rfl

theorem foldl_scanStep_store_stable (sendOk : Notification → Bool)
    (rows : List WatcherRow) (c : Nat) (l : List (Course × Section)) (st : ScanState)
    (h : ∀ r ∈ st.store, r.crn ≠ c) :
    ∀ r ∈ (l.foldl (scanStep sendOk rows) st).store, r.crn ≠ c := by
  induction l generalizing st with
  | nil => simpa using h
  | cons p l ih =>
    simp only [List.foldl_cons]
    apply ih
    intro r hr
    cases hm : isMatch rows p.2 with
    | false => simp only [scanStep, hm] at hr; exact h r hr
    | true =>
      simp only [scanStep, hm, if_true, deleteCrn, List.mem_filter] at hr
      exact h r hr.1

theorem foldl_scanStep_store_deleted (sendOk : Notification → Bool)
    (rows : List WatcherRow) (l : List (Course × Section)) (st : ScanState)
    (p : Course × Section) (hp : p ∈ l) (hm : isMatch rows p.2 = true) :
    ∀ r ∈ (l.foldl (scanStep sendOk rows) st).store, r.crn ≠ p.2.crn := by
  induction l generalizing st with
  | nil => cases hp
  | cons q l ih =>
    rcases List.mem_cons.mp hp with h | h
    · subst h
      simp only [List.foldl_cons]
      apply foldl_scanStep_store_stable
      intro r hr
      simp only [scanStep, hm, if_true, deleteCrn, List.mem_filter, bne_iff_ne] at hr
      exact hr.2
    · simp only [List.foldl_cons]
      exact ih _ h

theorem foldl_scanStep_store_indep (sendOk sendOk2 : Notification → Bool)
    (rows : List WatcherRow) (l : List (Course × Section)) (st st2 : ScanState)
    (h : st.store = st2.store) :
    (l.foldl (scanStep sendOk rows) st).store =
      (l.foldl (scanStep sendOk2 rows) st2).store := by
  induction l generalizing st st2 with
  | nil => simpa using h
  | cons p l ih =>
    simp only [List.foldl_cons]
    apply ih
    cases hm : isMatch rows p.2 with
    | false => simp [scanStep, hm, h]
    | true => simp [scanStep, hm, h]

/-! ### Helper lemmas for register and purge -/

theorem emailCount_map_append (rows : List WatcherRow) (crn : Nat) (email : String)
    (hany : rows.any (fun r => r.crn == crn) = true) :
    emailCount (rows.map (fun r => if r.crn == crn then ⟨r.crn, r.emails ++ [email]⟩ else r))
        crn email = emailCount rows crn email + 1 := by
  induction rows with
  | nil => simp at hany
  | cons r rows ih =>
    cases hc : (r.crn == crn) with
    | true =>
      have h1 : List.find? (fun q => q.crn == crn) (r :: rows) = some r :=
        List.find?_cons_of_pos _ hc
      have h2 : List.find? (fun q => q.crn == crn)
          ((r :: rows).map (fun q => if q.crn == crn then ⟨q.crn, q.emails ++ [email]⟩ else q)) =
          some ⟨r.crn, r.emails ++ [email]⟩ := by
        simp only [List.map_cons, hc, if_true]
        exact List.find?_cons_of_pos _ (by simpa using hc)
      unfold emailCount
      rw [h1, h2]
      simp [List.count_append]
    | false =>
      have hany2 : rows.any (fun q => q.crn == crn) = true := by
        simpa [hc] using hany
      have h1 : List.find? (fun q => q.crn == crn) (r :: rows) =
          List.find? (fun q => q.crn == crn) rows :=
        List.find?_cons_of_neg _ (by simp [hc])
      have h2 : List.find? (fun q => q.crn == crn)
          ((r :: rows).map (fun q => if q.crn == crn then ⟨q.crn, q.emails ++ [email]⟩ else q)) =
          List.find? (fun q => q.crn == crn)
            (rows.map (fun q => if q.crn == crn then ⟨q.crn, q.emails ++ [email]⟩ else q)) := by
        simp only [List.map_cons, hc, if_false]
        exact List.find?_cons_of_neg _ (by simp [hc])
      simp only [emailCount, h1, h2] at ih ⊢
      exact ih hany2

theorem emailCount_of_no_row (rows : List WatcherRow) (crn : Nat) (email : String)
    (hnone : rows.any (fun r => r.crn == crn) = false) :
    emailCount rows crn email = 0 := by
  have : rows.find? (fun r => r.crn == crn) = none :=
    List.find?_eq_none.mpr (List.any_eq_false.mp hnone)
  simp [emailCount, this]

theorem emailCount_append_new (rows : List WatcherRow) (crn : Nat) (email : String)
    (hnone : rows.any (fun r => r.crn == crn) = false) :
    emailCount (rows ++ [⟨crn, [email]⟩]) crn email = 1 := by
  induction rows with
  | nil => simp [emailCount, List.find?]
  | cons r rows ih =>
    have hc : (r.crn == crn) = false := by
      cases h : (r.crn == crn) with
      | true => simp [h] at hnone
      | false => rfl
    have hnone2 : rows.any (fun r => r.crn == crn) = false := by
      simpa [hc] using hnone
    simp only [List.cons_append, emailCount]
    rw [List.find?_cons_of_neg _ (by simp [hc])]
    simpa [emailCount] using ih hnone2

/-- Each upsert issued by `register` adds one more occurrence of the
email to the row found for the CRN. -/
theorem emailCount_upsert (rows : List WatcherRow) (crn : Nat) (email : String) :
    emailCount (upsertAppend rows crn email) crn email = emailCount rows crn email + 1 := by
  unfold upsertAppend
  cases hany : rows.any (fun r => r.crn == crn) with
  | true => simpa using emailCount_map_append rows crn email hany
  | false =>
    simp only [Bool.false_eq_true, if_false]
    rw [emailCount_append_new rows crn email hany, emailCount_of_no_row rows crn email hany]

/-- No email survives its own removal. -/
theorem not_mem_removeEmail (emails : List String) (email : String) :
    email ∉ removeEmail emails email := by
  simp [removeEmail, List.mem_filter]

/-- The global branch of `purge` (taken when the CRN argument is
falsy) leaves no occurrence of the email in any row. -/
theorem purge_global_removes (rows : List WatcherRow) (email : String)
    (crn : Option Nat) (hf : jsTruthy crn = false) :
    ∀ r ∈ (purge rows email crn).1, email ∉ r.emails := by
  intro r hr
  simp only [purge, hf, Bool.false_eq_true, if_false, List.mem_map] at hr
  obtain ⟨q, _, rfl⟩ := hr
  exact not_mem_removeEmail q.emails email

/-! ### Concrete fixtures (the scenario of the spec) -/

/-- The course of the spec scenario: title `Data Structures`, one
section `01` with crn 1234, 2 of 30 seats remaining. -/
def course1 : Course := ⟨"1200", "CSCI-1200", [⟨"01", 30, 2, 1234⟩], "Data Structures"⟩

/-- A one-department snapshot holding `course1`. -/
def deps1 : List Department := [⟨"CSCI", [course1]⟩]

/-- The subscription row of the spec scenario. -/
def row1 : WatcherRow := ⟨1234, ["u@rpi.edu"]⟩

/-- A second row, for a CRN that no section of `deps1` carries. -/
def row999 : WatcherRow := ⟨999, ["v@rpi.edu"]⟩

/-! ### Claim theorems -/

/-- Claim C3: for every section in the snapshot, visited in snapshot
traversal order (department, then course, then section), the scan
produces a match exactly when the section CRN is a key of the listener
index built from the subscription store at scan start and the remaining
count is strictly positive. -/
theorem scan_match_condition (sendOk : Notification → Bool) (rows : List WatcherRow)
    (deps : List Department) :
    (scan sendOk rows deps).sent =
      ((allCourseSections deps).filter
        (fun p => (listenersGet rows p.2.crn).isSome && decide (p.2.rem > 0))).map
        (mkNotif rows) :=
  scan_sent sendOk rows deps

/-- Claim C1: the subscription row of every matched section is deleted
by the scan unconditionally: no surviving row carries the matched CRN,
and the resulting store is the same whether the mail transport reports
success or failure. -/
theorem scan_retires_unconditionally (sendOk sendOk2 : Notification → Bool)
    (rows : List WatcherRow) (deps : List Department) (p : Course × Section)
    (r : WatcherRow) (hp : p ∈ allCourseSections deps) (hm : isMatch rows p.2 = true)
    (hr : r ∈ (scan sendOk rows deps).store) :
    r.crn ≠ p.2.crn ∧ (scan sendOk rows deps).store = (scan sendOk2 rows deps).store := by
  constructor
  · rw [scan_eq_foldl] at hr
    exact foldl_scanStep_store_deleted sendOk rows _ _ p hp hm r hr
  · rw [scan_eq_foldl, scan_eq_foldl]
    exact foldl_scanStep_store_indep sendOk sendOk2 rows _ _ _ rfl

/-- The retirement theorem at the scenario of the spec, with a mail
transport that fails every send on one side and succeeds on the other:
the row of CRN 1234 is gone either way and the unrelated row survives. -/
theorem scan_retires_unconditionally_witness :
    ((course1, (⟨"01", 30, 2, 1234⟩ : Section)) ∈ allCourseSections deps1 ∧
     isMatch [row1, row999] (⟨"01", 30, 2, 1234⟩ : Section) = true ∧
     row999 ∈ (scan (fun _ => false) [row1, row999] deps1).store) ∧
    (row999.crn ≠ (⟨"01", 30, 2, 1234⟩ : Section).crn ∧
     (scan (fun _ => false) [row1, row999] deps1).store =
       (scan (fun _ => true) [row1, row999] deps1).store) :=
  ⟨⟨by decide, by decide, by decide⟩,
   scan_retires_unconditionally (fun _ => false) (fun _ => true) [row1, row999] deps1
     (course1, ⟨"01", 30, 2, 1234⟩) row999 (by decide) (by decide) (by decide)⟩

theorem length_filter_eq_count (f : Course × Section → Nat) (c0 : Nat)
    (l : List (Course × Section)) :
    (l.filter (fun p => f p == c0)).length = (l.map f).count c0 := by
  induction l with
  | nil => rfl
  | cons p l ih =>
    cases h : (f p == c0) with
    | true => simp [List.filter_cons, List.count_cons, h, ih]
    | false => simp [List.filter_cons, List.count_cons, h, ih]

/-- Claim C8: within a single scan, at most one notification attempt is
made per subscription row: given that the snapshot carries each CRN on
at most one section, the notifications sent for any fixed CRN number at
most one. -/
theorem scan_at_most_one_per_row (sendOk : Notification → Bool)
    (rows : List WatcherRow) (deps : List Department) (c0 : Nat)
    (h : ((allSections deps).map Section.crn).Nodup) :
    ((scan sendOk rows deps).sent.filter (fun n => n.crn == c0)).length ≤ 1 := by
  rw [scan_sent, List.filter_map, List.length_map]
  have hsub : (((allCourseSections deps).filter (fun p => isMatch rows p.2)).filter
      ((fun n => n.crn == c0) ∘ mkNotif rows)).Sublist
      ((allCourseSections deps).filter ((fun n => n.crn == c0) ∘ mkNotif rows)) :=
    List.Sublist.filter _ (List.filter_sublist _)
  refine le_trans (List.Sublist.length_le hsub) ?_
  have h2 : ((allCourseSections deps).filter ((fun n => n.crn == c0) ∘ mkNotif rows)).length
      = ((allCourseSections deps).map (fun p => p.2.crn)).count c0 :=
    length_filter_eq_count (fun p => p.2.crn) c0 _
  rw [h2]
  simp only [allSections, List.map_map] at h
  exact List.nodup_iff_count_le_one.mp h c0

/-- The at-most-one theorem at the scenario of the spec. -/
theorem scan_at_most_one_per_row_witness :
    ((allSections deps1).map Section.crn).Nodup ∧
    ((scan (fun _ => true) [row1] deps1).sent.filter (fun n => n.crn == 1234)).length ≤ 1 :=
  ⟨by decide, scan_at_most_one_per_row (fun _ => true) [row1] deps1 1234 (by decide)⟩

/-- Claim C7: every match is notified with subject
`Course [title] section [sec] has a seat available!` and text
`rem/cap seats available`, addressed to the listener emails joined with
a comma and a space. -/
theorem scan_mail_format (sendOk : Notification → Bool) (rows : List WatcherRow)
    (deps : List Department) (c : Course) (s : Section)
    (hp : (c, s) ∈ allCourseSections deps)
    (hl : (listenersGet rows s.crn).isSome = true) (hs : s.rem > 0) :
    (⟨s.crn,
      ⟨String.intercalate ", " ((listenersGet rows s.crn).getD []),
       "Course [" ++ c.title ++ "] section [" ++ s.sec ++ "] has a seat available!",
       toString s.rem ++ "/" ++ toString s.cap ++ " seats available"⟩⟩ : Notification)
      ∈ (scan sendOk rows deps).sent := by
  rw [scan_sent]
  refine List.mem_map.mpr ⟨(c, s), List.mem_filter.mpr ⟨hp, ?_⟩, rfl⟩
  simp [isMatch, hl, hs]

/-- The mail-format theorem at the scenario of the spec: subscriber
`u@rpi.edu` on CRN 1234, section `01` of `Data Structures` with 2 of 30
seats remaining. -/
theorem scan_mail_format_witness :
    ((course1, (⟨"01", 30, 2, 1234⟩ : Section)) ∈ allCourseSections deps1 ∧
     (listenersGet [row1] 1234).isSome = true ∧ ((2 : Int) > 0)) ∧
    (⟨1234,
      ⟨"u@rpi.edu",
       "Course [Data Structures] section [01] has a seat available!",
       "2/30 seats available"⟩⟩ : Notification)
      ∈ (scan (fun _ => true) [row1] deps1).sent :=
  ⟨⟨by decide, by decide, by decide⟩,
   scan_mail_format (fun _ => true) [row1] deps1 course1 ⟨"01", 30, 2, 1234⟩
     (by decide) (by decide) (by decide)⟩

/-- Claim C2 counterexample: registering the pair (1234, u@rpi.edu)
twice leaves the emails array of the row for 1234 holding the email
twice, not exactly once: the conflict branch of the upsert concatenates
arrays without removing duplicates. -/
theorem register_twice_duplicates :
    registerResultStore (registerResultStore [] deps1 1234 "u@rpi.edu") deps1 1234 "u@rpi.edu"
      = [⟨1234, ["u@rpi.edu", "u@rpi.edu"]⟩] ∧
    emailCount (registerResultStore (registerResultStore [] deps1 1234 "u@rpi.edu")
      deps1 1234 "u@rpi.edu") 1234 "u@rpi.edu" ≠ 1 := by
  constructor
  · rfl
  · decide

/-- Claim C2 amended: registering the same (sectionId, email) pair
twice adds two occurrences of the email to the row for that section
(the upsert appends on every call, with no deduplication); the email is
a member of the subscriber list afterwards, but registration is not
idempotent. -/
theorem register_twice_appends (rows rows1 rows2 : List WatcherRow)
    (deps : List Department) (crn : Nat) (email : String)
    (h1 : register rows deps crn email = Except.ok rows1)
    (h2 : register rows1 deps crn email = Except.ok rows2) :
    emailCount rows2 crn email = emailCount rows crn email + 2 ∧
    0 < emailCount rows2 crn email := by
  have hx : sectionExists deps crn = true := by
    cases hx : sectionExists deps crn with
    | true => rfl
    | false => simp [register, hx] at h1
  have e1 : rows1 = upsertAppend rows crn email := by
    simp [register, hx] at h1
    exact h1.symm
  have e2 : rows2 = upsertAppend rows1 crn email := by
    simp [register, hx] at h2
    exact h2.symm
  subst e2
  subst e1
  rw [emailCount_upsert, emailCount_upsert]
  omega

/-- The amended registration theorem at the scenario pair
(1234, u@rpi.edu), starting from an empty store. -/
theorem register_twice_appends_witness :
    (register [] deps1 1234 "u@rpi.edu" = Except.ok [⟨1234, ["u@rpi.edu"]⟩] ∧
     register [⟨1234, ["u@rpi.edu"]⟩] deps1 1234 "u@rpi.edu" =
       Except.ok [⟨1234, ["u@rpi.edu", "u@rpi.edu"]⟩]) ∧
    (emailCount [⟨1234, ["u@rpi.edu", "u@rpi.edu"]⟩] 1234 "u@rpi.edu" =
       emailCount [] 1234 "u@rpi.edu" + 2 ∧
     0 < emailCount [⟨1234, ["u@rpi.edu", "u@rpi.edu"]⟩] 1234 "u@rpi.edu") :=
  ⟨⟨rfl, rfl⟩,
   register_twice_appends [] [⟨1234, ["u@rpi.edu"]⟩] [⟨1234, ["u@rpi.edu", "u@rpi.edu"]⟩]
     deps1 1234 "u@rpi.edu" rfl rfl⟩

/-- Claim C4: registering a CRN that no section of the cached snapshot
carries throws `not found` before the upsert, so the store is left
untouched. -/
theorem register_unknown_section (rows : List WatcherRow) (deps : List Department)
    (crn : Nat) (email : String) (h : sectionExists deps crn = false) :
    register rows deps crn email = Except.error "not found" ∧
    registerResultStore rows deps crn email = rows := by
  constructor
  · simp [register, h]
  · simp [registerResultStore, register, h]

/-- The unknown-section theorem at CRN 999999, absent from the scenario
snapshot. -/
theorem register_unknown_section_witness :
    sectionExists deps1 999999 = false ∧
    (register [row1] deps1 999999 "a@x.com" = Except.error "not found" ∧
     registerResultStore [row1] deps1 999999 "a@x.com" = [row1]) :=
  ⟨by decide, register_unknown_section [row1] deps1 999999 "a@x.com" (by decide)⟩

/-- Claim C6 counterexample: with the store holding only a row for CRN
5, the call `purge("a", 0)` passes a section identifier yet does not
leave the email on row 5 (a row other than the targeted section 0): the
zero CRN is falsy, the WHERE clause is skipped, and the removal runs
globally. -/
theorem purge_with_zero_not_scoped :
    (purge [⟨5, ["a"]⟩] "a" (some 0)).1 = [⟨5, []⟩] ∧
    (purge [⟨5, ["a"]⟩] "a" (some 0)).1 ≠ [⟨5, ["a"]⟩] := by
  constructor
  · rfl
  · decide

/-- Claim C6 amended: purge with a NONZERO sectionId removes the email
only from the row of that section, leaving every other row unchanged
and deleting no row even when a set becomes empty; purge without a
sectionId removes the email from every row and reports the number of
rows the update matched; both calls are total, raising no error when
the email was never present. -/
theorem purge_scoped_and_global (rows : List WatcherRow) (email : String) (c : Nat)
    (r q g : WatcherRow) (hc : c ≠ 0) (hr : r ∈ rows)
    (hq : q ∈ (purge rows email (some c)).1)
    (hg : g ∈ (purge rows email none).1) :
    ((purge rows email (some c)).1.length = rows.length) ∧
    (r.crn ≠ c → r ∈ (purge rows email (some c)).1) ∧
    (q.crn = c → email ∉ q.emails) ∧
    ((purge rows email none).1.length = rows.length) ∧
    (email ∉ g.emails) ∧
    ((purge rows email none).2 = rows.length) := by
  have ht : jsTruthy (some c) = true := by simp [jsTruthy, hc]
  refine ⟨?_, ?_, ?_, ?_, ?_, ?_⟩
  · simp [purge, ht]
  · intro hne
    simp only [purge, ht, if_true, Option.getD_some, List.mem_map]
    exact ⟨r, hr, by rw [if_neg (by simp [hne])]⟩
  · intro hqc
    simp only [purge, ht, if_true, Option.getD_some, List.mem_map] at hq
    obtain ⟨x, hx, hxe⟩ := hq
    by_cases hxc : x.crn = c
    · rw [if_pos (by simpa using hxc)] at hxe
      rw [← hxe]
      exact not_mem_removeEmail x.emails email
    · rw [if_neg (by simp [hxc])] at hxe
      subst hxe
      exact absurd hqc hxc
  · simp [purge, jsTruthy]
  · exact purge_global_removes rows email none rfl g hg
  · simp [purge, jsTruthy]

/-- The purge theorem at a two-row store: a scoped purge on CRN 5
leaves row 7 alone, the global purge empties the email everywhere and
reports both rows. -/
theorem purge_scoped_and_global_witness :
    (5 ≠ 0 ∧ (⟨7, ["a", "b"]⟩ : WatcherRow) ∈ [(⟨5, ["a"]⟩ : WatcherRow), ⟨7, ["a", "b"]⟩] ∧
     (⟨5, []⟩ : WatcherRow) ∈ (purge [⟨5, ["a"]⟩, ⟨7, ["a", "b"]⟩] "a" (some 5)).1 ∧
     (⟨5, []⟩ : WatcherRow) ∈ (purge [⟨5, ["a"]⟩, ⟨7, ["a", "b"]⟩] "a" none).1) ∧
    (((purge [⟨5, ["a"]⟩, ⟨7, ["a", "b"]⟩] "a" (some 5)).1.length =
        [(⟨5, ["a"]⟩ : WatcherRow), ⟨7, ["a", "b"]⟩].length) ∧
     ((⟨7, ["a", "b"]⟩ : WatcherRow).crn ≠ 5 →
        (⟨7, ["a", "b"]⟩ : WatcherRow) ∈ (purge [⟨5, ["a"]⟩, ⟨7, ["a", "b"]⟩] "a" (some 5)).1) ∧
     ((⟨5, []⟩ : WatcherRow).crn = 5 → "a" ∉ (⟨5, ([] : List String)⟩ : WatcherRow).emails) ∧
     ((purge [⟨5, ["a"]⟩, ⟨7, ["a", "b"]⟩] "a" none).1.length =
        [(⟨5, ["a"]⟩ : WatcherRow), ⟨7, ["a", "b"]⟩].length) ∧
     ("a" ∉ (⟨5, ([] : List String)⟩ : WatcherRow).emails) ∧
     ((purge [⟨5, ["a"]⟩, ⟨7, ["a", "b"]⟩] "a" none).2 =
        [(⟨5, ["a"]⟩ : WatcherRow), ⟨7, ["a", "b"]⟩].length)) :=
  ⟨⟨by decide, by decide, by decide, by decide⟩,
   purge_scoped_and_global [⟨5, ["a"]⟩, ⟨7, ["a", "b"]⟩] "a" 5
     ⟨7, ["a", "b"]⟩ ⟨5, []⟩ ⟨5, []⟩ (by decide) (by decide) (by decide) (by decide)⟩

/-- Claim C9: passing the section identifier 0 to purge behaves as the
global purge, because 0 is falsy for the WHERE-clause guard: the whole
call equals the global one and the email is removed from every row. -/
theorem purge_zero_is_global (rows : List WatcherRow) (email : String)
    (r : WatcherRow) (hr : r ∈ (purge rows email (some 0)).1) :
    purge rows email (some 0) = purge rows email none ∧ email ∉ r.emails :=
  ⟨rfl, purge_global_removes rows email (some 0) rfl r hr⟩

/-- The zero-CRN purge theorem at a one-row store for CRN 5. -/
theorem purge_zero_is_global_witness :
    ((⟨5, []⟩ : WatcherRow) ∈ (purge [⟨5, ["a"]⟩] "a" (some 0)).1) ∧
    (purge [⟨5, ["a"]⟩] "a" (some 0) = purge [⟨5, ["a"]⟩] "a" none ∧
     "a" ∉ (⟨5, ([] : List String)⟩ : WatcherRow).emails) :=
  ⟨by decide, purge_zero_is_global [⟨5, ["a"]⟩] "a" ⟨5, []⟩ (by decide)⟩

/-- Claim C5: when the catalog fetch fails, either at the directory
listing or at the course data of the selected release, the scan aborts
with the watcher state, including the cached snapshot, untouched and no
notification attempted. -/
theorem scanFull_fetch_failure (st : WatcherState)
    (listing : Except String (List String))
    (fetchCourses : String → Except String (List Department))
    (sendOk : Notification → Bool)
    (h : (∃ e, listing = Except.error e) ∨
      (∃ sems path e, listing = Except.ok sems ∧ selectLatest sems = some path ∧
        fetchCourses path = Except.error e)) :
    scanFull st listing fetchCourses sendOk = (st, []) := by
  rcases h with ⟨e, rfl⟩ | ⟨sems, path, e, rfl, hsel, hf⟩
  · rfl
  · simp [scanFull, hsel, hf]

/-- The fetch-failure theorem at a watcher that already caches the
scenario snapshot and holds one subscription. -/
theorem scanFull_fetch_failure_witness :
    ((∃ e, (Except.error "net" : Except String (List String)) = Except.error e) ∨
      (∃ sems path e, (Except.error "net" : Except String (List String)) = Except.ok sems ∧
        selectLatest sems = some path ∧
        (fun _ : String => (Except.error "net" : Except String (List Department))) path =
          Except.error e)) ∧
    scanFull ⟨some deps1, [row1]⟩ (Except.error "net")
      (fun _ => Except.error "net") (fun _ => true) = (⟨some deps1, [row1]⟩, []) :=
  ⟨Or.inl ⟨"net", rfl⟩,
   scanFull_fetch_failure ⟨some deps1, [row1]⟩ (Except.error "net")
     (fun _ => Except.error "net") (fun _ => true) (Or.inl ⟨"net", rfl⟩)⟩

/-- Claim C10: an empty release listing has no last entry, so the scan
fails before the cached snapshot is replaced and before any match or
notification: the watcher state comes back untouched with nothing
sent, whatever the course fetcher and the transport would have done. -/
theorem scanFull_empty_listing :
    selectLatest [] = none ∧
    ∀ (st : WatcherState) (fetchCourses : String → Except String (List Department))
      (sendOk : Notification → Bool),
      scanFull st (Except.ok []) fetchCourses sendOk = (st, []) :=
  ⟨rfl, fun _ _ _ => rfl⟩

end Birdwatch
